import Mathlib

/-!
Shallow embedding of the CamillaDSP websocket client
(src/camilladsp/camilladsp.py) and proofs about its protocol layer.

Strings are modelled as lists of characters (`Str`).  The websocket is
modelled as an oracle (`SockIO`): during one exchange it either fails
(send or recv raises) or delivers a raw reply string.  Python exceptions
that the client can raise are enumerated in `PyExn`.
-/

set_option maxRecDepth 4000

namespace CamillaDSP

/-- Python strings, modelled as lists of characters. -/
abbrev Str := List Char

/-- Python `str.lower()` restricted to the ASCII commands this client uses. -/
def lower (s : Str) : Str := s.map Char.toLower

/-- Split off the part of `s` before the first occurrence of `sep`;
returns the remainder after `sep` when `sep` occurs. -/
def splitFirst (sep : Char) : Str → Str × Option Str
  | [] => ([], Option.none)
  | c :: cs =>
    if c = sep then ([], some cs)
    else
      let r := splitFirst sep cs
      (c :: r.1, r.2)

/-- Python `s.split(sep, maxsplit)`: at most `maxsplit` splits are performed,
the remainder after the last split is kept verbatim. -/
def pySplit (sep : Char) : Nat → Str → List Str
  | 0, s => [s]
  | Nat.succ k, s =>
    match splitFirst sep s with
    | (a, Option.none) => [a]
    | (a, some rest) => a :: pySplit sep k rest

/-- The Python exceptions the client can raise during the operations
modelled here.  `openError` stands for whatever exception
`create_connection` raises on a socket-open failure; `indexError` is the
uncaught `IndexError` from `parts[1]` in `_parse_response`;
`attributeError` is the uncaught `None.split` in `_update_version`. -/
inductive PyExn where
  | ioError (msg : Str)
  | camillaError (msg : Str)
  | indexError
  | attributeError
  | openError
deriving DecidableEq, Repr

/-- The optional `arg` parameter of `_query`: either absent (`None`),
a Python string, or a Python int (as passed by e.g. `set_update_interval`). -/
inductive PyArg where
  | none
  | str (s : Str)
  | int (n : Int)
deriving DecidableEq, Repr

/-- Python truthiness of the `arg` value, as tested by `if arg:`
in `_query`: `None`, `0` and the empty string are falsy. -/
def PyArg.truthy : PyArg → Bool
  | .none => false
  | .str s => !s.isEmpty
  | .int n => n != 0

/-- The textual form `"{}".format(arg)` of the argument. -/
def PyArg.toStr : PyArg → Str
  | .none => "None".data
  | .str s => s
  | .int n => (toString n).data

/-- The observable state of a `CamillaConnection` object:
`ws` records whether `self._ws is not None`, `version` is `self._version`. -/
structure Session where
  ws : Bool
  version : Option (List Str)
deriving DecidableEq, Repr

/-- `is_connected` (src line 72): reflects handle presence, no I/O. -/
def is_connected (st : Session) : Bool := st.ws

/-- The behaviour of the socket during one send/recv exchange:
either one of the two calls raises, or a raw reply string is received. -/
inductive SockIO where
  | fail
  | reply (raw : Str)
deriving DecidableEq, Repr

def lostMsg : Str := "Lost connection to CamillaDSP".data
def notConnectedMsg : Str := "Not connected to CamillaDSP".data
def invalidResponseMsg : Str := "Invalid response received".data
def genericErrorMsg : Str := "Command returned an error".data
def okStatus : Str := "OK".data
def errorStatus : Str := "ERROR".data
def invalidMarker : Str := "invalid".data

/-- `_parse_response` (src lines 106-113):
`parts = resp.split(":", 2)`; reading `parts[1]` raises `IndexError`
when the reply contains no delimiter; the command part is lower-cased;
the third part, when present, is returned verbatim. -/
def parse_response (resp : Str) : Except PyExn (Str × Str × Option Str) :=
  match pySplit ':' 2 resp with
  | [] => .error .indexError
  | [_] => .error .indexError
  | [state, command] => .ok (state, lower command, Option.none)
  | state :: command :: payload :: _ => .ok (state, lower command, some payload)

/-- The wire request built by `_query` (src lines 80-83):
`"{}:{}".format(command, arg)` when `arg` is truthy, else the bare command. -/
def buildQuery (command : Str) (arg : PyArg) : Str :=
  if arg.truthy then command ++ ':' :: arg.toStr else command

/-- The classification of a parsed reply in `_query` (src lines 92-102),
given the requested command and the parsed `(state, cmd, reply)` triple.
`if reply:` is Python truthiness: `None` and the empty string both take
the falsy branch. -/
def handle_reply (command state cmd : Str) (reply : Option Str) :
    Except PyExn (Option Str) :=
  if state = okStatus ∧ cmd = lower command then
    match reply with
    | some p => if p.isEmpty then .ok Option.none else .ok (some p)
    | Option.none => .ok Option.none
  else if state = errorStatus ∧ (cmd = lower command ∨ cmd = invalidMarker) then
    match reply with
    | some p =>
      if p.isEmpty then .error (.camillaError genericErrorMsg)
      else .error (.camillaError p)
    | Option.none => .error (.camillaError genericErrorMsg)
  else .error (.ioError invalidResponseMsg)

/-- The outcome of one `_query` call: the returned value or raised
exception, the post-state of the session, and the request that was sent
over the socket (if any was sent at all). -/
structure ExchangeRes where
  result : Except PyExn (Option Str)
  post : Session
  sent : Option Str
deriving Repr

/-- `_query` (src lines 78-104).  When disconnected it raises
IOError("Not connected to CamillaDSP") without touching the socket.
When connected it sends the framed request; a send/recv failure clears
the handle and raises IOError("Lost connection to CamillaDSP"); otherwise
the raw reply is parsed and classified, leaving the handle untouched. -/
def query (st : Session) (sock : SockIO) (command : Str) (arg : PyArg) :
    ExchangeRes :=
  if st.ws then
    let q := buildQuery command arg
    match sock with
    | .fail => ⟨.error (.ioError lostMsg), { st with ws := false }, some q⟩
    | .reply rawrepl =>
      match parse_response rawrepl with
      | .error e => ⟨.error e, st, some q⟩
      | .ok (state, cmd, reply) => ⟨handle_reply command state cmd reply, st, some q⟩
  else ⟨.error (.ioError notConnectedMsg), st, Option.none⟩

/-- `_update_version` (src lines 115-116): `tuple(resp.split(".", 3))`. -/
def update_version (st : Session) (resp : Str) : Session :=
  { st with version := some (pySplit '.' 3 resp) }

/-- `connect` (src lines 45-58): opens the socket (`openOk` tells whether
`create_connection` succeeds), then issues the `getversion` query and
stores the parsed version; any exception inside the `try` clears the
handle and is re-raised.  A `getversion` reply with no payload makes
`_update_version(None)` raise `AttributeError`. -/
def connect (st : Session) (openOk : Bool) (sock : SockIO) :
    Except PyExn Unit × Session :=
  if openOk then
    let r := query { st with ws := true } sock ("getversion".data) .none
    match r.result with
    | .ok (some rawvers) => (.ok (), update_version r.post rawvers)
    | .ok Option.none => (.error .attributeError, { r.post with ws := false })
    | .error e => (.error e, { r.post with ws := false })
  else (.error .openError, { st with ws := false })

/-- `standard_rates` (src lines 6-20). -/
def standard_rates : List Int :=
  [8000, 11025, 16000, 22050, 32000, 44100, 48000,
   88200, 96000, 176400, 192000, 352800, 384000]

/-- One step of Python `min(xs, key=key)`: the running best is replaced
only when the new element's key is strictly smaller, so the first
element with minimal key wins. -/
def pyMinStep (key : Int → Int) (best v : Int) : Int :=
  if key v < key best then v else best

/-- Python `min(xs, key=key)` over a list (None on the empty list,
where Python would raise). -/
def pyMin (key : Int → Int) : List Int → Option Int
  | [] => Option.none
  | x :: xs => some (xs.foldl (pyMinStep key) x)

/-- `get_capture_rate` (src lines 154-162) for an integer raw rate.
The Python guard is `0.9 * standard_rates[0] < rate < 1.1 * standard_rates[-1]`
evaluated in IEEE-754 double precision:
`0.9` rounds to `8106479329266893 / 2^53`, and
`0.9 * 8000 = 8106479329266893 * 125 / 2^47` rounds to exactly `7200.0`
(the scaled value `7916483719987200.195...` rounds down to `7200 * 2^40`);
`1.1` rounds to `4953959590107546 / 2^52`, and
`1.1 * 384000 = 4953959590107546 * 375 / 2^42` scales to
`7256776743321600.586... / 2^34`, which rounds up to
`7256776743321601 / 2^34 = 422400.0000000000582...`.
Comparing a Python int against a float is exact, so for integer `rate`
the guard is `7200 < rate` and `rate * 2^34 < 7256776743321601`. -/
def get_capture_rate (rate : Int) : Option Int :=
  if 7200 < rate ∧ rate * 17179869184 < 7256776743321601 then
    pyMin (fun v => |v - rate|) standard_rates
  else Option.none

/-- `get_signal_range_dB` (src lines 136-145), with Python floats modelled
as real numbers: `20.0 * math.log10(sigrange / 2.0)` when the fetched
linear range is positive, else the sentinel `-1000`. -/
noncomputable def get_signal_range_dB (sigrange : ℝ) : ℝ :=
  if sigrange > 0 then 20 * Real.logb 10 (sigrange / 2) else -1000

/-- The methods defined on class `CamillaConnection` (src lines 30-269),
in source order. -/
def facade_method_names : List String :=
  ["__init__", "connect", "disconnect", "is_connected", "_query",
   "_parse_response", "_update_version", "get_version", "get_state",
   "get_signal_range", "get_signal_range_dB", "get_capture_rate_raw",
   "get_capture_rate", "get_update_interval", "set_update_interval",
   "get_rate_adjust", "stop", "exit", "reload", "get_config_name",
   "set_config_name", "get_config_raw", "set_config_raw", "get_config",
   "read_config", "read_config_file", "set_config", "validate_config"]

/-- Every command string passed to `_query` anywhere in the class
(src lines 45-269), in source order. -/
def facade_commands : List Str :=
  ["getversion".data, "getstate".data, "getsignalrange".data,
   "getcapturerate".data, "getupdateinterval".data,
   "setupdateinterval".data, "getrateadjust".data, "stop".data,
   "exit".data, "reload".data, "getconfigname".data,
   "setconfigname".data, "getconfig".data, "setconfig".data,
   "readconfig".data, "readconfigfile".data, "validateconfig".data]

/-- A wire reply assembled from its status, echoed command name and
optional payload: `STATUS:COMMAND` or `STATUS:COMMAND:PAYLOAD`. -/
def mkReply (status name : Str) (payload : Option Str) : Str :=
  status ++ ':' :: (name ++ (match payload with
    | some p => ':' :: p
    | Option.none => []))

/-- Collapse an empty payload to an absent one, the way Python
truthiness (`if reply:`) does in `_query`. -/
def truthyOpt (r : Option Str) : Option Str :=
  r.bind fun p => if p.isEmpty then Option.none else some p

/-! ### Helper lemmas about splitting -/

theorem splitFirst_of_not_mem (sep : Char) (s : Str) (h : sep ∉ s) :
    splitFirst sep s = (s, Option.none) := by
  induction s with
  | nil => rfl
  | cons c cs ih =>
    have hc : ¬ c = sep := fun hcs => h (hcs ▸ List.mem_cons_self c cs)
    have hcs : sep ∉ cs := fun hm => h (List.mem_cons_of_mem c hm)
    simp [splitFirst, hc, ih hcs]

theorem splitFirst_append (sep : Char) (a rest : Str) (h : sep ∉ a) :
    splitFirst sep (a ++ sep :: rest) = (a, some rest) := by
  induction a with
  | nil => simp [splitFirst]
  | cons c cs ih =>
    have hc : ¬ c = sep := fun hcs => h (hcs ▸ List.mem_cons_self c cs)
    have hcs : sep ∉ cs := fun hm => h (List.mem_cons_of_mem c hm)
    simp [splitFirst, hc, ih hcs]

theorem pySplit_length (sep : Char) (k : Nat) (s : Str) :
    (pySplit sep k s).length ≤ k + 1 := by
  induction k generalizing s with
  | zero => simp [pySplit]
  | succ k ih =>
    unfold pySplit
    match hs : splitFirst sep s with
    | (a, Option.none) => simp
    | (a, some rest) =>
      simp only [List.length_cons]
      exact Nat.succ_le_succ (ih rest)

theorem pySplit_two (a b : Str) (ha : ':' ∉ a) (hb : ':' ∉ b) :
    pySplit ':' 2 (a ++ ':' :: b) = [a, b] := by
  unfold pySplit
  simp only [splitFirst_append ':' a b ha]
  unfold pySplit
  simp only [splitFirst_of_not_mem ':' b hb]

theorem pySplit_three (a b p : Str) (ha : ':' ∉ a) (hb : ':' ∉ b) :
    pySplit ':' 2 (a ++ ':' :: (b ++ ':' :: p)) = [a, b, p] := by
  unfold pySplit
  simp only [splitFirst_append ':' a (b ++ ':' :: p) ha]
  unfold pySplit
  simp only [splitFirst_append ':' b p hb]
  rfl

theorem pySplit_no_sep (sep : Char) (k : Nat) (s : Str) (h : sep ∉ s) :
    pySplit sep (k + 1) s = [s] := by
  unfold pySplit
  rw [splitFirst_of_not_mem sep s h]

/-! ### Helper lemmas about `parse_response` -/

theorem parse_response_no_colon (s : Str) (h : ':' ∉ s) :
    parse_response s = .error .indexError := by
  unfold parse_response
  rw [show (2 : Nat) = 1 + 1 from rfl, pySplit_no_sep ':' 1 s h]

theorem parse_response_two (a b : Str) (ha : ':' ∉ a) (hb : ':' ∉ b) :
    parse_response (a ++ ':' :: b) = .ok (a, lower b, Option.none) := by
  unfold parse_response
  rw [pySplit_two a b ha hb]

theorem parse_response_three (a b p : Str) (ha : ':' ∉ a) (hb : ':' ∉ b) :
    parse_response (a ++ ':' :: (b ++ ':' :: p)) = .ok (a, lower b, some p) := by
  unfold parse_response
  rw [pySplit_three a b p ha hb]

/-! ### Helper lemmas about `query` -/

theorem query_not_connected (st : Session) (h : st.ws = false)
    (sock : SockIO) (command : Str) (arg : PyArg) :
    query st sock command arg =
      ⟨.error (.ioError notConnectedMsg), st, Option.none⟩ := by
  unfold query
  rw [h]
  simp

theorem query_fail (st : Session) (h : st.ws = true) (command : Str) (arg : PyArg) :
    query st .fail command arg =
      ⟨.error (.ioError lostMsg), { st with ws := false },
        some (buildQuery command arg)⟩ := by
  unfold query
  rw [h]
  simp

theorem query_reply (st : Session) (h : st.ws = true) (raw : Str)
    (command : Str) (arg : PyArg) :
    query st (.reply raw) command arg =
      ⟨(match parse_response raw with
        | .error e => .error e
        | .ok (state, cmd, reply) => handle_reply command state cmd reply),
        st, some (buildQuery command arg)⟩ := by
  unfold query
  rw [h]
  simp only [if_true]
  match hp : parse_response raw with
  | .error e => simp [hp]
  | .ok (state, cmd, reply) => simp [hp]

theorem query_post_ws (st : Session) (sock : SockIO) (command : Str) (arg : PyArg) :
    (query st sock command arg).post = st ∨
      ((query st sock command arg).post = { st with ws := false } ∧
        (query st sock command arg).result = .error (.ioError lostMsg)) := by
  match hw : st.ws with
  | false => rw [query_not_connected st hw sock command arg]; left; rfl
  | true =>
    match sock with
    | .fail => rw [query_fail st hw command arg]; right; exact ⟨rfl, rfl⟩
    | .reply raw => rw [query_reply st hw raw command arg]; left; rfl

theorem query_ok_post (st : Session) (sock : SockIO) (command : Str) (arg : PyArg)
    (v : Option Str) (h : (query st sock command arg).result = .ok v) :
    (query st sock command arg).post = st := by
  rcases query_post_ws st sock command arg with h1 | ⟨h1, h2⟩
  · exact h1
  · rw [h2] at h
    exact absurd h (by simp)

/-! ### Helper lemmas about `pyMin` (Python `min` with a key function) -/

theorem pyMinStep_le_left (key : Int → Int) (b v : Int) :
    key (pyMinStep key b v) ≤ key b := by
  unfold pyMinStep
  split
  · omega
  · exact le_refl _

theorem pyMinStep_le_right (key : Int → Int) (b v : Int) :
    key (pyMinStep key b v) ≤ key v := by
  unfold pyMinStep
  split
  · exact le_refl _
  · omega

theorem foldl_pyMinStep_le (key : Int → Int) (xs : List Int) (b : Int) :
    key (xs.foldl (pyMinStep key) b) ≤ key b ∧
      ∀ w ∈ xs, key (xs.foldl (pyMinStep key) b) ≤ key w := by
  induction xs generalizing b with
  | nil => simp
  | cons x xs ih =>
    rcases ih (pyMinStep key b x) with ⟨h1, h2⟩
    refine ⟨le_trans h1 (pyMinStep_le_left key b x), ?_⟩
    intro w hw
    rcases List.mem_cons.mp hw with rfl | hw
    · exact le_trans h1 (pyMinStep_le_right key b w)
    · exact h2 w hw

theorem foldl_pyMinStep_mem (key : Int → Int) (xs : List Int) (b : Int) :
    xs.foldl (pyMinStep key) b = b ∨ xs.foldl (pyMinStep key) b ∈ xs := by
  induction xs generalizing b with
  | nil => left; rfl
  | cons x xs ih =>
    rw [List.foldl_cons]
    rcases ih (pyMinStep key b x) with h | h
    · rw [h]
      unfold pyMinStep
      split
      · right; exact List.mem_cons_self x xs
      · left; rfl
    · right; exact List.mem_cons_of_mem x h

theorem foldl_pyMinStep_first (key : Int → Int) (xs : List Int) (b : Int) :
    xs.foldl (pyMinStep key) b = b ∨
      ∃ l₁ l₂, xs = l₁ ++ (xs.foldl (pyMinStep key) b) :: l₂ ∧
        key (xs.foldl (pyMinStep key) b) < key b ∧
        ∀ w ∈ l₁, key (xs.foldl (pyMinStep key) b) < key w := by
  induction xs generalizing b with
  | nil => left; rfl
  | cons x xs ih =>
    rw [List.foldl_cons]
    by_cases hx : key x < key b
    · have hstep : pyMinStep key b x = x := by unfold pyMinStep; rw [if_pos hx]
      rw [hstep]
      rcases ih x with h | ⟨l₁, l₂, hsplit, hlt, hfirst⟩
      · right
        exact ⟨[], xs, by simp [h], by rw [h]; exact hx, by intro w hw; cases hw⟩
      · right
        refine ⟨x :: l₁, l₂, by rw [List.cons_append, ← hsplit],
          lt_trans hlt hx, ?_⟩
        intro w hw
        rcases List.mem_cons.mp hw with rfl | hw
        · exact hlt
        · exact hfirst w hw
    · have hstep : pyMinStep key b x = b := by unfold pyMinStep; rw [if_neg hx]
      rw [hstep]
      rcases ih b with h | ⟨l₁, l₂, hsplit, hlt, hfirst⟩
      · left; exact h
      · right
        refine ⟨x :: l₁, l₂, by rw [List.cons_append, ← hsplit], hlt, ?_⟩
        intro w hw
        rcases List.mem_cons.mp hw with rfl | hw
        · exact lt_of_lt_of_le hlt (le_of_not_lt hx)
        · exact hfirst w hw

/-! ### Helper lemmas about `handle_reply` and `connect` -/

theorem handle_reply_eq (command state cmd : Str) (reply : Option Str) :
    handle_reply command state cmd reply =
      (if state = okStatus ∧ cmd = lower command then .ok (truthyOpt reply)
       else if state = errorStatus ∧ (cmd = lower command ∨ cmd = invalidMarker) then
         .error (.camillaError ((truthyOpt reply).getD genericErrorMsg))
       else .error (.ioError invalidResponseMsg)) := by
  unfold handle_reply truthyOpt
  cases reply with
  | none => simp
  | some p => cases p <;> simp

theorem handle_reply_empty (command state cmd : Str) :
    handle_reply command state cmd (some []) =
      handle_reply command state cmd Option.none := by
  unfold handle_reply
  split_ifs <;> rfl

theorem connect_open_fail (st : Session) (sock : SockIO) :
    connect st false sock = (.error .openError, { st with ws := false }) := rfl

theorem connect_true (st : Session) (sock : SockIO) :
    connect st true sock =
      (match (query { st with ws := true } sock ("getversion".data) .none).result with
       | .ok (some rawvers) =>
         (.ok (), update_version
           (query { st with ws := true } sock ("getversion".data) .none).post rawvers)
       | .ok Option.none =>
         (.error .attributeError,
           { (query { st with ws := true } sock ("getversion".data) .none).post with
             ws := false })
       | .error e =>
         (.error e,
           { (query { st with ws := true } sock ("getversion".data) .none).post with
             ws := false })) := rfl

/-- Python `min(x :: xs, key=key)` returns the first element attaining the
minimal key: it is a member, its key is minimal, and every element strictly
before it in the list has a strictly larger key. -/
theorem pyMin_spec (key : Int → Int) (x : Int) (xs : List Int) :
    ∃ r, pyMin key (x :: xs) = some r ∧ r ∈ x :: xs ∧
      (∀ w ∈ x :: xs, key r ≤ key w) ∧
      ∃ l₁ l₂, x :: xs = l₁ ++ r :: l₂ ∧ ∀ w ∈ l₁, key r < key w := by
  refine ⟨xs.foldl (pyMinStep key) x, rfl, ?_, ?_, ?_⟩
  · rcases foldl_pyMinStep_mem key xs x with h | h
    · rw [h]; exact List.mem_cons_self x xs
    · exact List.mem_cons_of_mem x h
  · intro w hw
    rcases List.mem_cons.mp hw with hwx | hw
    · rw [hwx]; exact (foldl_pyMinStep_le key xs x).1
    · exact (foldl_pyMinStep_le key xs x).2 w hw
  · rcases foldl_pyMinStep_first key xs x with h | ⟨l₁, l₂, hsplit, hlt, hfirst⟩
    · exact ⟨[], xs, by simp [h], by intro w hw; cases hw⟩
    · refine ⟨x :: l₁, l₂, by rw [List.cons_append, ← hsplit], ?_⟩
      intro w hw
      rcases List.mem_cons.mp hw with hwx | hw
      · rw [hwx]; exact hlt
      · exact hfirst w hw

/-! ### Claim theorems -/

/-- C1 (counterexample): for request `geterror` and reply `ERROR:GETERROR:`
the parsed payload is present (the empty string), so the claim requires a
CamillaError whose message is that payload; the code instead raises the
generic "Command returned an error" message, which is not the empty string. -/
theorem C1_counterexample :
    parse_response "ERROR:GETERROR:".data =
      .ok (errorStatus, lower "geterror".data, some []) ∧
    (query ⟨true, Option.none⟩ (.reply "ERROR:GETERROR:".data)
      "geterror".data .none).result = .error (.camillaError genericErrorMsg) ∧
    genericErrorMsg ≠ ([] : Str) :=
  ⟨rfl, rfl, by decide⟩

/-- C1 (amended): response classification after every exchange.  For every
reply `STATUS:NAME` or `STATUS:NAME:PAYLOAD`: if the status is `OK` and the
echoed name matches the command lower-cased, the call succeeds, returning
the payload if a NON-EMPTY one is present and no value otherwise; if the
status is `ERROR` and the echoed name matches or is the catch-all
`invalid`, the call fails with a CamillaError whose message is the payload
if a non-empty one is present, else the generic message; in every other
case the call fails with IOError "Invalid response received".  The
connection state is unchanged in all cases. -/
theorem C1_response_classification (st : Session) (hws : st.ws = true)
    (command : Str) (arg : PyArg) (status name : Str) (payload : Option Str)
    (hs : ':' ∉ status) (hn : ':' ∉ name) :
    (query st (.reply (mkReply status name payload)) command arg).result =
      (if status = okStatus ∧ lower name = lower command then
        .ok (truthyOpt payload)
      else if status = errorStatus ∧
          (lower name = lower command ∨ lower name = invalidMarker) then
        .error (.camillaError ((truthyOpt payload).getD genericErrorMsg))
      else .error (.ioError invalidResponseMsg)) ∧
    (query st (.reply (mkReply status name payload)) command arg).post = st := by
  cases payload with
  | none =>
    have hr : mkReply status name Option.none = status ++ ':' :: name := by
      simp [mkReply]
    rw [hr, query_reply st hws _ command arg]
    refine ⟨?_, rfl⟩
    simp only [parse_response_two status name hs hn]
    exact handle_reply_eq command status (lower name) Option.none
  | some p =>
    have hr : mkReply status name (some p) = status ++ ':' :: (name ++ ':' :: p) := by
      simp [mkReply]
    rw [hr, query_reply st hws _ command arg]
    refine ⟨?_, rfl⟩
    simp only [parse_response_three status name p hs hn]
    exact handle_reply_eq command status (lower name) (some p)

/-- C1 witness: the OK branch at a concrete fabricated reply. -/
theorem C1_witness :
    (query ⟨true, Option.none⟩
      (.reply (mkReply "OK".data "GETSTATE".data (some "IDLE".data)))
      "getstate".data .none).result = .ok (some "IDLE".data) := by
  have h := (C1_response_classification ⟨true, Option.none⟩ rfl "getstate".data
    .none "OK".data "GETSTATE".data (some "IDLE".data) (by decide) (by decide)).1
  rw [h]
  rfl

/-- C2: `_parse_response` splits the raw reply on ":" into at most 3 parts,
splitting only at the first two delimiters; for a reply
`STATUS:COMMAND:PAYLOAD` the first part is the status, the second the
command name lower-cased, and the third is the payload kept verbatim,
embedded delimiters included. -/
theorem C2_parse_splits_at_most_twice :
    (∀ s : Str, (pySplit ':' 2 s).length ≤ 3) ∧
    ∀ status command payload : Str, ':' ∉ status → ':' ∉ command →
      parse_response (status ++ ':' :: (command ++ ':' :: payload)) =
        .ok (status, lower command, some payload) :=
  ⟨fun s => pySplit_length ':' 2 s,
   fun a b p ha hb => parse_response_three a b p ha hb⟩

/-- C2 witness: a payload with embedded delimiters is kept verbatim. -/
theorem C2_witness :
    parse_response ("OK".data ++ ':' :: ("GETCONFIG".data ++ ':' :: "a:b:c".data)) =
      .ok ("OK".data, lower "GETCONFIG".data, some "a:b:c".data) :=
  C2_parse_splits_at_most_twice.2 "OK".data "GETCONFIG".data "a:b:c".data
    (by decide) (by decide)

/-- C3: a socket failure during an exchange clears the handle and raises
IOError "Lost connection to CamillaDSP"; from a disconnected session every
exchange fails with IOError "Not connected to CamillaDSP", leaves the
state unchanged and sends nothing over the socket. -/
theorem C3_lost_connection (st : Session) (hws : st.ws = true)
    (command : Str) (arg : PyArg) :
    query st .fail command arg =
      ⟨.error (.ioError lostMsg), { st with ws := false },
        some (buildQuery command arg)⟩ ∧
    ∀ (st2 : Session), st2.ws = false →
      ∀ (sock : SockIO) (command2 : Str) (arg2 : PyArg),
        query st2 sock command2 arg2 =
          ⟨.error (.ioError notConnectedMsg), st2, Option.none⟩ :=
  ⟨query_fail st hws command arg,
   fun st2 h2 sock c2 a2 => query_not_connected st2 h2 sock c2 a2⟩

/-- C3 witness: a concrete lost exchange followed by a concrete refused one. -/
theorem C3_witness :
    (query ⟨true, Option.none⟩ .fail "getstate".data .none).result =
      .error (.ioError lostMsg) ∧
    (query ⟨true, Option.none⟩ .fail "getstate".data .none).post.ws = false ∧
    query ⟨false, Option.none⟩ (.reply "OK:GETSTATE:IDLE".data)
        "getstate".data .none =
      ⟨.error (.ioError notConnectedMsg), ⟨false, Option.none⟩, Option.none⟩ := by
  have h := C3_lost_connection ⟨true, Option.none⟩ rfl "getstate".data .none
  exact ⟨by rw [h.1], by rw [h.1],
    h.2 ⟨false, Option.none⟩ rfl (.reply "OK:GETSTATE:IDLE".data)
      "getstate".data .none⟩

/-- C4 (counterexample): on the reply "abcdefgh" (no delimiter at all) the
exchange does not fail with an IOError: `_parse_response` raises an
uncaught IndexError at `parts[1]`.  The connection state is indeed left
unchanged. -/
theorem C4_counterexample :
    (query ⟨true, Option.none⟩ (.reply "abcdefgh".data)
      "nonsense".data .none).result = .error .indexError ∧
    (∀ m : Str, (query ⟨true, Option.none⟩ (.reply "abcdefgh".data)
      "nonsense".data .none).result ≠ .error (.ioError m)) ∧
    (query ⟨true, Option.none⟩ (.reply "abcdefgh".data)
      "nonsense".data .none).post.ws = true := by
  refine ⟨rfl, ?_, rfl⟩
  intro m h
  rw [show (query ⟨true, Option.none⟩ (.reply "abcdefgh".data)
    "nonsense".data .none).result = .error .indexError from rfl] at h
  simp at h

/-- C4 (amended): for every raw reply containing no ":" the exchange fails
with an uncaught IndexError (from indexing the missing second part in
`_parse_response`), not with an IOError, and the Session's connection
state is left unchanged (still connected). -/
theorem C4_no_delimiter (st : Session) (hws : st.ws = true) (raw : Str)
    (hraw : ':' ∉ raw) (command : Str) (arg : PyArg) :
    query st (.reply raw) command arg =
      ⟨.error .indexError, st, some (buildQuery command arg)⟩ := by
  rw [query_reply st hws raw command arg, parse_response_no_colon raw hraw]

/-- C4 witness: the amended behaviour at a concrete delimiter-free reply. -/
theorem C4_witness :
    query ⟨true, Option.none⟩ (.reply "nodelimiter".data) "getstate".data .none =
      ⟨.error .indexError, ⟨true, Option.none⟩,
        some (buildQuery "getstate".data .none)⟩ :=
  C4_no_delimiter ⟨true, Option.none⟩ rfl "nodelimiter".data (by decide)
    "getstate".data .none

/-- C5 (counterexample): when the engine answers the version query with
`ERROR:GETVERSION`, `connect` propagates a CamillaError (a Protocol
Error), not an IOError/Transport Error; the handle is reset as claimed. -/
theorem C5_counterexample :
    (connect ⟨false, Option.none⟩ true (.reply "ERROR:GETVERSION".data)).1 =
      .error (.camillaError genericErrorMsg) ∧
    (connect ⟨false, Option.none⟩ true (.reply "ERROR:GETVERSION".data)).2.ws =
      false ∧
    ∀ m : Str, PyExn.camillaError genericErrorMsg ≠ PyExn.ioError m := by
  refine ⟨rfl, rfl, ?_⟩
  intro m h
  exact PyExn.noConfusion h

/-- C5 (amended): `connect` opens the socket and then issues the version
query; on any failure of either step the connection handle is reset to
unconnected and the failure is propagated to the caller unchanged — the
socket-open failure or a send/recv failure as a Transport Error, but an
engine error reply to the version query as a CamillaError; on success the
session is connected; the outcome does not depend on the prior connection
state, so connect is safe to call again after a failed or closed session. -/
theorem C5_connect (st : Session) (openOk : Bool) (sock : SockIO) :
    (∀ e, (connect st openOk sock).1 = .error e →
      (connect st openOk sock).2.ws = false) ∧
    ((connect st openOk sock).1 = .ok () →
      (connect st openOk sock).2.ws = true) ∧
    (openOk = false →
      connect st openOk sock = (.error .openError, { st with ws := false })) ∧
    (openOk = true → sock = .fail →
      connect st openOk sock =
        (.error (.ioError lostMsg), { st with ws := false })) ∧
    (∀ b : Bool, connect { st with ws := b } openOk sock = connect st openOk sock) := by
  refine ⟨?_, ?_, ?_, ?_, fun b => rfl⟩
  · intro e he
    cases openOk with
    | false => rfl
    | true =>
      rw [connect_true] at he ⊢
      cases hr : (query { st with ws := true } sock ("getversion".data) .none).result with
      | ok v =>
        cases v with
        | none => simp [hr]
        | some rv => rw [hr] at he; simp at he
      | error e2 => simp [hr]
  · intro hok
    cases openOk with
    | false => rw [connect_open_fail] at hok; simp at hok
    | true =>
      rw [connect_true] at hok ⊢
      cases hr : (query { st with ws := true } sock ("getversion".data) .none).result with
      | ok v =>
        cases v with
        | none => rw [hr] at hok; simp at hok
        | some rv =>
          simp only [hr]
          show (update_version
            (query { st with ws := true } sock ("getversion".data) .none).post rv).ws = true
          rw [show ∀ (s : Session) (r : Str), (update_version s r).ws = s.ws
            from fun s r => rfl]
          rw [query_ok_post { st with ws := true } sock ("getversion".data) .none
            (some rv) hr]
      | error e2 => rw [hr] at hok; simp at hok
  · intro h
    rw [h]
    exact connect_open_fail st sock
  · intro ho hs
    rw [ho, hs, connect_true]
    rw [query_fail { st with ws := true } rfl ("getversion".data) .none]

/-- C5 witness: the amended behaviour exercised at concrete inputs. -/
theorem C5_witness :
    connect ⟨true, Option.none⟩ false .fail =
      (.error .openError, ⟨false, Option.none⟩) ∧
    connect ⟨false, Option.none⟩ true .fail =
      (.error (.ioError lostMsg), ⟨false, Option.none⟩) := by
  have h1 := (C5_connect ⟨true, Option.none⟩ false .fail).2.2.1 rfl
  have h2 := (C5_connect ⟨false, Option.none⟩ true .fail).2.2.2.1 rfl rfl
  exact ⟨h1, h2⟩

/-- C6 (counterexample): the claim's strict bound excludes the raw rate
422400 (it is not strictly below 1.1·384000 = 422400 in exact arithmetic),
so the claim demands "unknown" (None) there; but the code's guard compares
against the double 1.1*384000 = 422400.0000000000582..., admits 422400,
and snaps it to 384000. -/
theorem C6_counterexample :
    get_capture_rate 422400 = some 384000 ∧
    ¬((7200 : Int) < 422400 ∧ (422400 : Int) < 422400) :=
  ⟨rfl, by decide⟩

/-- C6 (amended): for every raw integer rate, if `7200 < rate ≤ 422400`
(the exact meaning of the code's float guard
`0.9*8000 < rate < 1.1*384000`, whose upper bound rounds up to slightly
above 422400 and so admits the integer 422400), `get_capture_rate`
returns the element of `standard_rates` with minimal absolute difference
from the rate, ties broken by first occurrence in list order; otherwise
it returns None.  In particular raw 88250 snaps to 88200. -/
theorem C6_capture_rate_snapping (rate : Int) :
    ((7200 < rate ∧ rate * 17179869184 < 7256776743321601) ↔
      (7200 < rate ∧ rate ≤ 422400)) ∧
    (7200 < rate → rate ≤ 422400 →
      ∃ r, get_capture_rate rate = some r ∧ r ∈ standard_rates ∧
        (∀ w ∈ standard_rates, |r - rate| ≤ |w - rate|) ∧
        ∃ l₁ l₂, standard_rates = l₁ ++ r :: l₂ ∧
          ∀ w ∈ l₁, |r - rate| < |w - rate|) ∧
    (¬(7200 < rate ∧ rate ≤ 422400) → get_capture_rate rate = Option.none) ∧
    get_capture_rate 88250 = some 88200 := by
  have hiff : (7200 < rate ∧ rate * 17179869184 < 7256776743321601) ↔
      (7200 < rate ∧ rate ≤ 422400) := by omega
  refine ⟨hiff, ?_, ?_, rfl⟩
  · intro h1 h2
    have hc : 7200 < rate ∧ rate * 17179869184 < 7256776743321601 :=
      hiff.mpr ⟨h1, h2⟩
    obtain ⟨r, hval, hmem, hmin, hfirst⟩ := pyMin_spec (fun v => |v - rate|) 8000
      [11025, 16000, 22050, 32000, 44100, 48000, 88200, 96000, 176400,
       192000, 352800, 384000]
    refine ⟨r, ?_, hmem, hmin, hfirst⟩
    unfold get_capture_rate
    rw [if_pos hc]
    exact hval
  · intro h
    unfold get_capture_rate
    rw [if_neg]
    intro hc
    exact h (hiff.mp hc)

/-- C6 witness: the amended claim at raw rates 88250 (in range) and
500000 (out of range). -/
theorem C6_witness :
    (∃ r, get_capture_rate 88250 = some r ∧ r ∈ standard_rates ∧
      (∀ w ∈ standard_rates, |r - 88250| ≤ |w - 88250|) ∧
      ∃ l₁ l₂, standard_rates = l₁ ++ r :: l₂ ∧
        ∀ w ∈ l₁, |r - 88250| < |w - 88250|) ∧
    get_capture_rate 500000 = Option.none :=
  ⟨(C6_capture_rate_snapping 88250).2.1 (by decide) (by decide),
   (C6_capture_rate_snapping 500000).2.2.1 (by decide)⟩

/-- C7 (counterexample): `set_update_interval(0)` issues the command with
the argument 0 present, yet `_query`'s truthiness test `if arg:` drops it
and the bare command name is sent, not `COMMAND:0`. -/
theorem C7_counterexample :
    (query ⟨true, Option.none⟩ (.reply "OK:SETUPDATEINTERVAL".data)
      "setupdateinterval".data (.int 0)).sent = some "setupdateinterval".data ∧
    PyArg.toStr (.int 0) = "0".data ∧
    ("setupdateinterval".data : Str) ≠ "setupdateinterval".data ++ ':' :: "0".data :=
  ⟨rfl, rfl, by decide⟩

/-- C7 (amended): during every exchange from a connected session exactly
one message is sent, `buildQuery command arg`; it is
`COMMAND:ARGUMENT` whenever the argument is truthy (non-None, non-zero,
non-empty), and the bare command name when the argument is absent — or
present but falsy (0 or the empty string). -/
theorem C7_request_framing (st : Session) (hws : st.ws = true)
    (sock : SockIO) (command : Str) (arg : PyArg) :
    (query st sock command arg).sent = some (buildQuery command arg) ∧
    (arg.truthy = true → buildQuery command arg = command ++ ':' :: arg.toStr) ∧
    (arg.truthy = false → buildQuery command arg = command) ∧
    PyArg.truthy .none = false := by
  refine ⟨?_, ?_, ?_, rfl⟩
  · cases sock with
    | fail => rw [query_fail st hws]
    | reply raw => rw [query_reply st hws]
  · intro h
    simp [buildQuery, h]
  · intro h
    simp [buildQuery, h]

/-- C7 witness: the framing at a concrete command with a truthy argument. -/
theorem C7_witness :
    (query ⟨true, Option.none⟩ (.reply "OK:SETUPDATEINTERVAL".data)
      "setupdateinterval".data (.int 500)).sent =
      some (buildQuery "setupdateinterval".data (.int 500)) ∧
    buildQuery "setupdateinterval".data (.int 500) =
      "setupdateinterval".data ++ ':' :: (PyArg.int 500).toStr := by
  have h := C7_request_framing ⟨true, Option.none⟩ rfl
    (.reply "OK:SETUPDATEINTERVAL".data) "setupdateinterval".data (.int 500)
  exact ⟨h.1, h.2.1 (by decide)⟩

/-- C8: the class defines no buffer-level and no clipped-sample-count
method, and no method sends a `getbufferlevel` or `getclippedsamples`
command — even though the repository's own test `test_queries`
(src/tests/test_camillaws.py lines 166-169) calls
`get_buffer_level()` and `get_clipped_samples()`. -/
theorem C8_buffer_level_missing :
    "get_buffer_level" ∉ facade_method_names ∧
    "get_clipped_samples" ∉ facade_method_names ∧
    "getbufferlevel".data ∉ facade_commands ∧
    "getclippedsamples".data ∉ facade_commands := by
  decide

/-- C9: `get_signal_range_dB` is a pure derivation from the fetched linear
range: `20·log10(range/2)` for positive range and the sentinel -1000
otherwise; linear range 0.2 yields -20 and 0 yields -1000. -/
theorem C9_signal_range_dB :
    (∀ r : ℝ, 0 < r → get_signal_range_dB r = 20 * Real.logb 10 (r / 2)) ∧
    (∀ r : ℝ, r ≤ 0 → get_signal_range_dB r = -1000) ∧
    get_signal_range_dB (1 / 5) = -20 ∧
    get_signal_range_dB 0 = -1000 := by
  have h1 : ∀ r : ℝ, 0 < r → get_signal_range_dB r = 20 * Real.logb 10 (r / 2) := by
    intro r hr
    unfold get_signal_range_dB
    rw [if_pos hr]
  have h2 : ∀ r : ℝ, r ≤ 0 → get_signal_range_dB r = -1000 := by
    intro r hr
    unfold get_signal_range_dB
    rw [if_neg (not_lt.mpr hr)]
  refine ⟨h1, h2, ?_, h2 0 le_rfl⟩
  rw [h1 (1 / 5) (by norm_num)]
  rw [show ((1 : ℝ) / 5) / 2 = (10 : ℝ)⁻¹ by norm_num]
  rw [Real.logb_inv, Real.logb_self_eq_one (by norm_num)]
  norm_num

/-- C9 witness: the positive branch applied at linear range 1/5. -/
theorem C9_witness :
    get_signal_range_dB (1 / 5) = 20 * Real.logb 10 ((1 / 5) / 2) :=
  C9_signal_range_dB.1 (1 / 5) (by norm_num)

/-- C10: a well-formed reply whose payload part is the empty string
(`STATUS:NAME:`) is treated by the exchange exactly like the reply with no
payload part at all (`STATUS:NAME`), for every status, echoed name,
command and argument: same result, same post-state, same sent request. -/
theorem C10_empty_payload (st : Session) (hws : st.ws = true)
    (status name : Str) (hs : ':' ∉ status) (hn : ':' ∉ name)
    (command : Str) (arg : PyArg) :
    query st (.reply (status ++ ':' :: (name ++ [':']))) command arg =
      query st (.reply (status ++ ':' :: name)) command arg := by
  rw [query_reply st hws _ command arg, query_reply st hws _ command arg]
  simp only [parse_response_three status name [] hs hn,
    parse_response_two status name hs hn, handle_reply_empty]

/-- C10 witness: `OK:GETSTATE:` behaves like `OK:GETSTATE` (both return no
value), and `ERROR:GETERR:` behaves like `ERROR:GETERR`. -/
theorem C10_witness :
    query ⟨true, Option.none⟩
        (.reply ("OK".data ++ ':' :: ("GETSTATE".data ++ [':'])))
        "getstate".data .none =
      query ⟨true, Option.none⟩ (.reply ("OK".data ++ ':' :: "GETSTATE".data))
        "getstate".data .none ∧
    query ⟨true, Option.none⟩
        (.reply ("ERROR".data ++ ':' :: ("GETERR".data ++ [':'])))
        "geterr".data .none =
      query ⟨true, Option.none⟩ (.reply ("ERROR".data ++ ':' :: "GETERR".data))
        "geterr".data .none :=
  ⟨C10_empty_payload ⟨true, Option.none⟩ rfl "OK".data "GETSTATE".data
      (by decide) (by decide) "getstate".data .none,
   C10_empty_payload ⟨true, Option.none⟩ rfl "ERROR".data "GETERR".data
      (by decide) (by decide) "geterr".data .none⟩

end CamillaDSP
